import Mathlib

/-!
Verification of the SNMP walk-file generator (`scripts/generate_modern_walk.py`).

The script is a pure templating utility: a static device catalog maps
(vendor, model) keys to device descriptors, and straight-line string
formatting functions expand a descriptor into the lines of a synthetic
SNMP walk file.  We embed the catalog and every line-producing function
shallowly: each Python function becomes a Lean function on the same data,
f-string interpolation becomes string concatenation, and the one effect
the generator's output depends on (the `datetime.now()` timestamp placed
in the header comment) becomes an explicit `now : String` parameter.
Printing to stdout and the file write are not part of the produced line
sequence; the error paths of `generate_walk_file` are modelled by an
explicit result type carrying the information the script prints.
-/

/-- Device descriptor record: one entry of `DEVICE_TEMPLATES` in the script.
The field names follow the Python dict keys (`model`, `description`,
`ports`, `stacking`, `poe`, `uplinks`). -/
structure Device where
  model : String
  description : String
  ports : Nat
  stacking : Bool
  poe : Bool
  uplinks : List String
deriving DecidableEq

def cisco_c3850_48p : Device :=
  { model := "WS-C3850-48P"
    description := "Cisco IOS Software, C3850 Software (C3850-UNIVERSALK9-M), Version 16.12.4, RELEASE SOFTWARE (fc5)"
    ports := 48
    stacking := true
    poe := true
    uplinks := ["TenGigabitEthernet1/1/1", "TenGigabitEthernet1/1/2", "TenGigabitEthernet1/1/3", "TenGigabitEthernet1/1/4"] }

def cisco_c3650_48p : Device :=
  { model := "WS-C3650-48PD"
    description := "Cisco IOS Software, C3650 Software (C3650-UNIVERSALK9-M), Version 16.12.4, RELEASE SOFTWARE (fc5)"
    ports := 48
    stacking := true
    poe := true
    uplinks := ["TenGigabitEthernet1/1/1", "TenGigabitEthernet1/1/2"] }

def cisco_c9300_48p : Device :=
  { model := "C9300-48P"
    description := "Cisco IOS Software [Gibraltar], Catalyst L3 Switch Software (CAT9K_IOSXE), Version 17.6.3, RELEASE SOFTWARE (fc4)"
    ports := 48
    stacking := true
    poe := true
    uplinks := ["TenGigabitEthernet1/1/1", "TenGigabitEthernet1/1/2", "TenGigabitEthernet1/1/3", "TenGigabitEthernet1/1/4"] }

def cisco_n9k_c9300 : Device :=
  { model := "N9K-C9300"
    description := "Cisco Nexus Operating System (NX-OS) Software, Version 9.3(8)"
    ports := 32
    stacking := false
    poe := false
    uplinks := ["Ethernet1/1", "Ethernet1/2", "Ethernet1/3", "Ethernet1/4"] }

def juniper_ex4300_48p : Device :=
  { model := "EX4300-48P"
    description := "Juniper Networks, Inc. ex4300-48p Ethernet Switch, kernel JUNOS 20.4R3.8, Build date: 2021-10-15"
    ports := 48
    stacking := true
    poe := true
    uplinks := ["ge-0/1/0", "ge-0/1/1", "ge-0/1/2", "ge-0/1/3"] }

def juniper_qfx5100_48s : Device :=
  { model := "QFX5100-48S"
    description := "Juniper Networks, Inc. qfx5100-48s-6q Ethernet Switch, kernel JUNOS 20.4R3.8"
    ports := 48
    stacking := false
    poe := false
    uplinks := ["et-0/0/48", "et-0/0/49", "et-0/0/50", "et-0/0/51"] }

def aruba_cx6300_48g : Device :=
  { model := "JL762A"
    description := "Aruba CX 6300 48G 4SFP56 Switch, ArubaOS-CX FL.10.10.1010"
    ports := 48
    stacking := true
    poe := false
    uplinks := ["1/1/49", "1/1/50", "1/1/51", "1/1/52"] }

def aruba_cx8360_48y8c : Device :=
  { model := "JL706A"
    description := "Aruba CX 8360-48Y8C Switch, ArubaOS-CX FL.10.10.1010"
    ports := 48
    stacking := false
    poe := false
    uplinks := ["1/1/49", "1/1/50", "1/1/51", "1/1/52"] }

def extreme_x465_48w : Device :=
  { model := "X465-48W"
    description := "ExtremeXOS (X465-48W) version 32.3.1.4 by release-manager on Thu Nov  4 19:18:03 EDT 2021"
    ports := 48
    stacking := true
    poe := true
    uplinks := ["1:49", "1:50", "1:51", "1:52"] }

def paloalto_pa_440 : Device :=
  { model := "PA-440"
    description := "Palo Alto Networks PA-440 firewall, PAN-OS 10.2.3"
    ports := 8
    stacking := false
    poe := false
    uplinks := ["ethernet1/1", "ethernet1/2"] }

def hpe_aruba_2930f_48g : Device :=
  { model := "JL262A"
    description := "HPE Aruba 2930F 48G 4SFP+ Switch, FL.16.11.0009"
    ports := 48
    stacking := true
    poe := false
    uplinks := ["1/49", "1/50", "1/51", "1/52"] }

def hpe_aruba_6300m_48g : Device :=
  { model := "JL659A"
    description := "HPE Aruba CX 6300M 48G Class 4 PoE 4SFP56 Switch, ArubaOS-CX FL.10.11.1020"
    ports := 48
    stacking := true
    poe := true
    uplinks := ["1/1/49", "1/1/50", "1/1/51", "1/1/52"] }

def arista_7050sx3_48yc12 : Device :=
  { model := "7050SX3-48YC12"
    description := "Arista Networks EOS version 4.28.3M"
    ports := 48
    stacking := false
    poe := false
    uplinks := ["Ethernet49/1", "Ethernet50/1", "Ethernet51/1", "Ethernet52/1"] }

def arista_7280sr3_48yc8 : Device :=
  { model := "7280SR3-48YC8"
    description := "Arista Networks EOS version 4.28.3M"
    ports := 48
    stacking := false
    poe := false
    uplinks := ["Ethernet49/1", "Ethernet50/1", "Ethernet51/1", "Ethernet52/1"] }

def dell_n3248te_on : Device :=
  { model := "N3248TE-ON"
    description := "Dell EMC Networking N3248TE-ON, OS10 Enterprise 10.5.3.4"
    ports := 48
    stacking := true
    poe := true
    uplinks := ["ethernet1/1/49", "ethernet1/1/50", "ethernet1/1/51", "ethernet1/1/52"] }

def dell_s5248f_on : Device :=
  { model := "S5248F-ON"
    description := "Dell EMC Networking S5248F-ON, OS10 Enterprise 10.5.3.4"
    ports := 48
    stacking := true
    poe := false
    uplinks := ["ethernet1/1/49", "ethernet1/1/50", "ethernet1/1/51", "ethernet1/1/52"] }

def fortinet_fs_448e_fpoe : Device :=
  { model := "FS-448E-FPOE"
    description := "FortiSwitch-448E-FPOE v7.2.3,build0517,221201 (GA)"
    ports := 48
    stacking := true
    poe := true
    uplinks := ["port49", "port50", "port51", "port52"] }

def fortinet_fs_548d_fpoe : Device :=
  { model := "FS-548D-FPOE"
    description := "FortiSwitch-548D-FPOE v7.2.3,build0517,221201 (GA)"
    ports := 48
    stacking := true
    poe := true
    uplinks := ["port49", "port50", "port51", "port52"] }

def meraki_ms390_48uxb : Device :=
  { model := "MS390-48UXB"
    description := "Cisco Meraki MS390-48UXB Cloud-Managed Aggregation Switch, firmware 15.21"
    ports := 48
    stacking := true
    poe := true
    uplinks := ["Port49", "Port50", "Port51", "Port52"] }

def meraki_ms425_48 : Device :=
  { model := "MS425-48"
    description := "Cisco Meraki MS425-48 Cloud-Managed Aggregation Switch, firmware 15.21"
    ports := 48
    stacking := true
    poe := false
    uplinks := ["Port49", "Port50", "Port51", "Port52"] }

/-- The per-vendor model tables, in the dict insertion order of the script
(Python 3.7+ dicts preserve insertion order, which is what
`', '.join(DEVICE_TEMPLATES[vendor].keys())` exposes). -/
def ciscoModels : List (String × Device) :=
  [("c3850-48p", cisco_c3850_48p), ("c3650-48p", cisco_c3650_48p),
   ("c9300-48p", cisco_c9300_48p), ("n9k-c9300", cisco_n9k_c9300)]

def juniperModels : List (String × Device) :=
  [("ex4300-48p", juniper_ex4300_48p), ("qfx5100-48s", juniper_qfx5100_48s)]

def arubaModels : List (String × Device) :=
  [("cx6300-48g", aruba_cx6300_48g), ("cx8360-48y8c", aruba_cx8360_48y8c)]

def extremeModels : List (String × Device) :=
  [("x465-48w", extreme_x465_48w)]

def paloaltoModels : List (String × Device) :=
  [("pa-440", paloalto_pa_440)]

def hpeModels : List (String × Device) :=
  [("aruba-2930f-48g", hpe_aruba_2930f_48g), ("aruba-6300m-48g", hpe_aruba_6300m_48g)]

def aristaModels : List (String × Device) :=
  [("7050sx3-48yc12", arista_7050sx3_48yc12), ("7280sr3-48yc8", arista_7280sr3_48yc8)]

def dellModels : List (String × Device) :=
  [("n3248te-on", dell_n3248te_on), ("s5248f-on", dell_s5248f_on)]

def fortinetModels : List (String × Device) :=
  [("fs-448e-fpoe", fortinet_fs_448e_fpoe), ("fs-548d-fpoe", fortinet_fs_548d_fpoe)]

def merakiModels : List (String × Device) :=
  [("ms390-48uxb", meraki_ms390_48uxb), ("ms425-48", meraki_ms425_48)]

/-- The whole `DEVICE_TEMPLATES` catalog as an ordered association list:
vendor key to model table, in source insertion order. -/
def DEVICE_TEMPLATES : List (String × List (String × Device)) :=
  [("cisco", ciscoModels), ("juniper", juniperModels), ("aruba", arubaModels),
   ("extreme", extremeModels), ("paloalto", paloaltoModels), ("hpe", hpeModels),
   ("arista", aristaModels), ("dell", dellModels), ("fortinet", fortinetModels),
   ("meraki", merakiModels)]

/-- Python `str.title` restricted to what the script feeds it (vendor key
slugs): the first character of every alphabetic run is uppercased and the
remaining characters of the run are lowercased.  The boolean argument
records whether the previous character was alphabetic. -/
def titleGo : Bool → List Char → List Char
  | _, [] => []
  | prevAlpha, c :: cs =>
    let c2 := if c.isAlpha then (if prevAlpha then c.toLower else c.toUpper) else c
    c2 :: titleGo c.isAlpha cs

def pyTitle (s : String) : String := ⟨titleGo false s.data⟩

/-- `generate_system_mib`: the seven System MIB lines. -/
def generate_system_mib (device_info : Device) (hostname : String) : List String :=
  [".1.3.6.1.2.1.1.1.0 = STRING: " ++ device_info.description,
   ".1.3.6.1.2.1.1.2.0 = OID: .1.3.6.1.4.1.9.1.1719",
   ".1.3.6.1.2.1.1.3.0 = Timeticks: (123456789) 14 days, 6:56:07.89",
   ".1.3.6.1.2.1.1.4.0 = STRING: Network Administrator",
   ".1.3.6.1.2.1.1.5.0 = STRING: " ++ hostname,
   ".1.3.6.1.2.1.1.6.0 = STRING: NiAC-Go Simulated Device",
   ".1.3.6.1.2.1.1.7.0 = INTEGER: 78"]

/-- The five interface-table rows the loop body of `generate_interface_mib`
emits for one interface index `i` (ifIndex, ifDescr, ifType, ifSpeed,
ifOperStatus).  The branch structure mirrors the `if i <= num_ports /
elif i <= num_ports + len(uplinks) / else` chain of the script. -/
def ifEntry (device_info : Device) (i : Nat) : List String :=
  (".1.3.6.1.2.1.2.2.1.1." ++ toString i ++ " = INTEGER: " ++ toString i) ::
  (if i ≤ device_info.ports then
    [".1.3.6.1.2.1.2.2.1.2." ++ toString i ++ " = STRING: GigabitEthernet1/0/" ++ toString i,
     ".1.3.6.1.2.1.2.2.1.3." ++ toString i ++ " = INTEGER: 6",
     ".1.3.6.1.2.1.2.2.1.5." ++ toString i ++ " = Gauge32: 1000000000",
     ".1.3.6.1.2.1.2.2.1.8." ++ toString i ++ " = INTEGER: 1"]
   else if i ≤ device_info.ports + device_info.uplinks.length then
    [".1.3.6.1.2.1.2.2.1.2." ++ toString i ++ " = STRING: " ++ device_info.uplinks.getD (i - device_info.ports - 1) "",
     ".1.3.6.1.2.1.2.2.1.3." ++ toString i ++ " = INTEGER: 6",
     ".1.3.6.1.2.1.2.2.1.5." ++ toString i ++ " = Gauge32: 10000000000",
     ".1.3.6.1.2.1.2.2.1.8." ++ toString i ++ " = INTEGER: 1"]
   else
    [".1.3.6.1.2.1.2.2.1.2." ++ toString i ++ " = STRING: Vlan1",
     ".1.3.6.1.2.1.2.2.1.3." ++ toString i ++ " = INTEGER: 53",
     ".1.3.6.1.2.1.2.2.1.5." ++ toString i ++ " = Gauge32: 1000000000",
     ".1.3.6.1.2.1.2.2.1.8." ++ toString i ++ " = INTEGER: 1"])

/-- `generate_interface_mib`: the ifNumber line followed by the interface
table rows for indices `1` to `total_ifs` (the Python loop
`for i in range(1, total_ifs + 1)`). -/
def generate_interface_mib (device_info : Device) : List String :=
  let total_ifs := device_info.ports + device_info.uplinks.length + 1
  (".1.3.6.1.2.1.2.1.0 = INTEGER: " ++ toString total_ifs) ::
    (((List.range total_ifs).map (fun k => ifEntry device_info (k + 1))).flatten)

/-- `generate_cisco_enterprise_mib`: entity rows, CPU gauges, memory pool. -/
def generate_cisco_enterprise_mib (device_info : Device) : List String :=
  [".1.3.6.1.4.1.9.9.13.1.3.1.3.1 = STRING: " ++ device_info.model,
   ".1.3.6.1.4.1.9.9.13.1.3.1.5.1 = STRING: Chassis",
   ".1.3.6.1.4.1.9.9.13.1.3.1.11.1 = STRING: FOCCXXXXXXX",
   ".1.3.6.1.4.1.9.9.109.1.1.1.1.3.1 = Gauge32: 5",
   ".1.3.6.1.4.1.9.9.109.1.1.1.1.4.1 = Gauge32: 8",
   ".1.3.6.1.4.1.9.9.109.1.1.1.1.5.1 = Gauge32: 10",
   ".1.3.6.1.4.1.9.9.48.1.1.1.5.1 = INTEGER: 4194304000",
   ".1.3.6.1.4.1.9.9.48.1.1.1.6.1 = INTEGER: 12582912000"]

/-- `generate_juniper_enterprise_mib`: chassis description and serial. -/
def generate_juniper_enterprise_mib (device_info : Device) : List String :=
  [".1.3.6.1.4.1.2636.3.1.2.0 = STRING: " ++ device_info.model,
   ".1.3.6.1.4.1.2636.3.1.3.0 = STRING: SNXXXXXXXX"]

/-- The vendor dispatch inside `generate_walk_file`
(`if vendor == 'cisco': ... elif vendor == 'juniper': ... ` with no else). -/
def enterpriseLines (vendor : String) (device_info : Device) : List String :=
  if vendor = "cisco" then generate_cisco_enterprise_mib device_info
  else if vendor = "juniper" then generate_juniper_enterprise_mib device_info
  else []

/-- The full ordered line sequence `generate_walk_file` assembles for a
looked-up descriptor: header comment block, system section, blank line,
interface section, blank line, vendor enterprise section.  `now` is the
string `datetime.now().strftime('%Y-%m-%d %H:%M:%S')` produces at run
time. -/
def assembleLines (vendor : String) (device_info : Device) (hostname now : String) : List String :=
  ["# SNMP Walk File for " ++ pyTitle vendor ++ " " ++ device_info.model,
   "# Generated by NiAC-Go walk file generator",
   "# Date: " ++ now,
   "# Hostname: " ++ hostname,
   "#"]
  ++ generate_system_mib device_info hostname
  ++ [""]
  ++ generate_interface_mib device_info
  ++ [""]
  ++ enterpriseLines vendor device_info

/-- Outcome of `generate_walk_file`.  The error constructors carry exactly
the information the script prints before returning `False`: the bad key
and the comma-joined list of valid keys at that level. -/
inductive WalkResult where
  | vendorNotFound (badKey : String) (availableVendors : String)
  | modelNotFound (badKey : String) (vendor : String) (availableModels : String)
  | ok (lines : List String)
deriving DecidableEq

/-- `generate_walk_file`: validate the two catalog keys, then assemble the
line sequence that is written to the output file. -/
def generate_walk_file (vendor model hostname now : String) : WalkResult :=
  match DEVICE_TEMPLATES.lookup vendor with
  | none => .vendorNotFound vendor (String.intercalate ", " (DEVICE_TEMPLATES.map Prod.fst))
  | some models =>
    match models.lookup model with
    | none => .modelNotFound model vendor (String.intercalate ", " (models.map Prod.fst))
    | some device_info => .ok (assembleLines vendor device_info hostname now)

/-- Exit code of `main` on the generation path: `0 if success else 1`,
where `generate_walk_file` returns `False` exactly on the two lookup
failures. -/
def mainExitCode (vendor model hostname now : String) : Nat :=
  match generate_walk_file vendor model hostname now with
  | .ok _ => 0
  | _ => 1

/-- Projection to the successfully generated lines, if any. -/
def walkOk : WalkResult → Option (List String)
  | .ok lines => some lines
  | _ => none

/-- The character sequence written to the output file:
`f.write('\n'.join(lines))` followed by `f.write('\n')`. -/
def fileData (lines : List String) : List Char :=
  (List.intercalate ['\n'] (lines.map String.data)) ++ ['\n']

/-- A character allowed inside a dotted-numeric OID. -/
def oidChar (c : Char) : Bool := c.isDigit || c = '.'

/-- Consume the digits-and-dots tail of an OID; succeed when the literal
separator `" = "` follows, returning what comes after it. -/
def checkOidDigits : List Char → Option (List Char)
  | [] => none
  | c :: rest =>
    if oidChar c then checkOidDigits rest
    else
      match c, rest with
      | ' ', '=' :: ' ' :: r => some r
      | _, _ => none

/-- After the first character of a type tag: alphanumeric characters up to
the literal `": "` that separates the tag from the value. -/
def checkTagRest : List Char → Bool
  | [] => false
  | c :: rest =>
    if c.isAlpha || c.isDigit then checkTagRest rest
    else
      match c, rest with
      | ':', ' ' :: _ => true
      | _, _ => false

/-- A nonempty alphanumeric type tag followed by `": "` and an arbitrary
value. -/
def checkTag : List Char → Bool
  | [] => false
  | c :: rest => (c.isAlpha || c.isDigit) && checkTagRest rest

/-- Body of the OID-entry case: everything after the leading dot. -/
def oidBody (rest : List Char) : Bool :=
  match checkOidDigits rest with
  | some after => checkTag after
  | none => false

/-- The line grammar of the output-file contract: a line is blank, a
comment, or an OID entry `<OID> = <TypeTag>: <value>` with a
dotted-numeric OID and an alphanumeric type tag. -/
def isWalkLineChars : List Char → Bool
  | [] => true
  | '#' :: _ => true
  | '.' :: rest => oidBody rest
  | _ => false

def isWalkLine (s : String) : Bool := isWalkLineChars s.data

/-- A character sequence that ends in exactly one newline. -/
def singleTrailingNewline (cs : List Char) : Bool :=
  (cs.getLast? == some '\n') && !(cs.dropLast.getLast? == some '\n')

def allDevices : List Device :=
  [cisco_c3850_48p, cisco_c3650_48p, cisco_c9300_48p, cisco_n9k_c9300,
   juniper_ex4300_48p, juniper_qfx5100_48s, aruba_cx6300_48g, aruba_cx8360_48y8c,
   extreme_x465_48w, paloalto_pa_440, hpe_aruba_2930f_48g, hpe_aruba_6300m_48g,
   arista_7050sx3_48yc12, arista_7280sr3_48yc8, dell_n3248te_on, dell_s5248f_on,
   fortinet_fs_448e_fpoe, fortinet_fs_548d_fpoe, meraki_ms390_48uxb, meraki_ms425_48]

/-- The PA-440 descriptor with both informational flags flipped, used to
exhibit that `stacking` and `poe` never influence the generated lines. -/
def paloalto_pa_440_flipped : Device :=
  { paloalto_pa_440 with stacking := true, poe := true }

lemma lookup_mem_snd {α β : Type} [BEq α] {l : List (α × β)} {a : α} {b : β}
    (h : l.lookup a = some b) : b ∈ l.map Prod.snd := by
  induction l with
  | nil => simp [List.lookup] at h
  | cons p l ih =>
    obtain ⟨k, v⟩ := p
    rw [List.lookup_cons] at h
    cases hak : (a == k) with
    | true => rw [hak] at h; simp at h; simp [h]
    | false => rw [hak] at h; exact List.mem_cons_of_mem _ (ih h)

lemma lookup_mem_fst {α β : Type} [BEq α] [LawfulBEq α] {l : List (α × β)} {a : α} {b : β}
    (h : l.lookup a = some b) : a ∈ l.map Prod.fst := by
  induction l with
  | nil => simp [List.lookup] at h
  | cons p l ih =>
    obtain ⟨k, v⟩ := p
    rw [List.lookup_cons] at h
    cases hak : (a == k) with
    | true => simp at hak; simp [hak]
    | false => rw [hak] at h; exact List.mem_cons_of_mem _ (ih h)

/-- Every model table reachable from the catalog contains only devices of
`allDevices`. -/
lemma catalog_devices :
    ∀ ms ∈ DEVICE_TEMPLATES.map Prod.snd, ∀ d ∈ ms.map Prod.snd, d ∈ allDevices := by
  decide

/-- A successful run of `generate_walk_file` returns the assembled lines of
some catalog device. -/
lemma ok_shape {vendor model hostname now : String} {ls : List String}
    (h : generate_walk_file vendor model hostname now = .ok ls) :
    ∃ d ∈ allDevices, ls = assembleLines vendor d hostname now := by
  unfold generate_walk_file at h
  split at h
  · exact absurd h (by simp)
  · rename_i ms hv
    split at h
    · exact absurd h (by simp)
    · rename_i d hm
      refine ⟨d, ?_, by injection h with h2; exact h2.symm⟩
      exact catalog_devices ms (lookup_mem_snd hv) d (lookup_mem_snd hm)

set_option maxRecDepth 40000 in
lemma interface_all_devices :
    allDevices.all (fun d => (generate_interface_mib d).all isWalkLine) = true := by decide

lemma interface_all_ok {d : Device} (hd : d ∈ allDevices) :
    (generate_interface_mib d).all isWalkLine = true := by
  have h := List.all_eq_true.mp interface_all_devices d hd
  simpa using h

lemma header1_ok (v m : String) : isWalkLine ("# SNMP Walk File for " ++ v ++ " " ++ m) = true := rfl

lemma dateLine_ok (t : String) : isWalkLine ("# Date: " ++ t) = true := rfl

lemma hostLine_ok (h : String) : isWalkLine ("# Hostname: " ++ h) = true := rfl

lemma sysDescrLine_ok (s : String) : isWalkLine (".1.3.6.1.2.1.1.1.0 = STRING: " ++ s) = true := rfl

lemma sysNameLine_ok (h : String) : isWalkLine (".1.3.6.1.2.1.1.5.0 = STRING: " ++ h) = true := rfl

lemma system_all_ok (d : Device) (hostname : String) :
    (generate_system_mib d hostname).all isWalkLine = true := by
  simp only [generate_system_mib, List.all_cons, List.all_nil,
    sysDescrLine_ok d.description, sysNameLine_ok hostname]
  decide

lemma ciscoModelLine_ok (m : String) :
    isWalkLine (".1.3.6.1.4.1.9.9.13.1.3.1.3.1 = STRING: " ++ m) = true := rfl

lemma juniperModelLine_ok (m : String) :
    isWalkLine (".1.3.6.1.4.1.2636.3.1.2.0 = STRING: " ++ m) = true := rfl

lemma cisco_all_ok (d : Device) :
    (generate_cisco_enterprise_mib d).all isWalkLine = true := by
  simp only [generate_cisco_enterprise_mib, List.all_cons, List.all_nil,
    ciscoModelLine_ok d.model]
  decide

lemma juniper_all_ok (d : Device) :
    (generate_juniper_enterprise_mib d).all isWalkLine = true := by
  simp only [generate_juniper_enterprise_mib, List.all_cons, List.all_nil,
    juniperModelLine_ok d.model]
  decide

lemma enterprise_all_ok (vendor : String) (d : Device) :
    (enterpriseLines vendor d).all isWalkLine = true := by
  unfold enterpriseLines
  by_cases hc : vendor = "cisco"
  · rw [if_pos hc]; exact cisco_all_ok d
  · rw [if_neg hc]
    by_cases hj : vendor = "juniper"
    · rw [if_pos hj]; exact juniper_all_ok d
    · rw [if_neg hj]; rfl

/-- Every line the assembler produces is a comment, blank, or an OID entry
of the contract grammar. -/
lemma assemble_all_ok {d : Device} (hd : d ∈ allDevices) (vendor hostname now : String) :
    (assembleLines vendor d hostname now).all isWalkLine = true := by
  unfold assembleLines
  simp only [List.all_append, List.all_cons, List.all_nil,
    header1_ok (pyTitle vendor) d.model, dateLine_ok now, hostLine_ok hostname,
    system_all_ok d hostname, interface_all_ok hd, enterprise_all_ok vendor d]
  decide

/-- The tail of the assembled sequence is the blank separator plus the
vendor enterprise section. -/
lemma assemble_getLast_eq (vendor : String) (d : Device) (hostname now : String) :
    (assembleLines vendor d hostname now).getLast? =
      ([""] ++ enterpriseLines vendor d).getLast? := by
  unfold assembleLines
  rw [List.append_assoc]
  exact List.getLast?_append_of_ne_nil _ (by simp)

/-- Last assembled line, by vendor: the Cisco memory-pool line, the Juniper
serial line, or the blank separator when no enterprise section exists. -/
lemma blank_enterprise_getLast (vendor : String) (d : Device) :
    (([""] : List String) ++ enterpriseLines vendor d).getLast? =
      some (if vendor = "cisco" then ".1.3.6.1.4.1.9.9.48.1.1.1.6.1 = INTEGER: 12582912000"
        else if vendor = "juniper" then ".1.3.6.1.4.1.2636.3.1.3.0 = STRING: SNXXXXXXXX"
        else "") := by
  unfold enterpriseLines
  by_cases hc : vendor = "cisco"
  · rw [if_pos hc, if_pos hc]
    simp [generate_cisco_enterprise_mib]
  · rw [if_neg hc, if_neg hc]
    by_cases hj : vendor = "juniper"
    · rw [if_pos hj, if_pos hj]
      simp [generate_juniper_enterprise_mib]
    · rw [if_neg hj, if_neg hj]
      rfl

/-- C1: for every device descriptor, the interface-table generator emits as
its first line an ifNumber entry (.1.3.6.1.2.1.2.1.0) whose INTEGER value
is `portCount + len(uplinks) + 1`. -/
theorem claim1_ifNumber (d : Device) :
    (generate_interface_mib d).head? =
      some (".1.3.6.1.2.1.2.1.0 = INTEGER: " ++ toString (d.ports + d.uplinks.length + 1)) :=
  rfl

/-- C2: the interface table is the ifNumber line followed by the entries
for indices 1..total in order with no gaps; indices up to `portCount` are
access ports named GigabitEthernet1/0/i with ifType 6, ifSpeed 1000000000
and ifOperStatus 1; the next `len(uplinks)` indices carry the uplink names
in catalog order with ifType 6, ifSpeed 10000000000 and ifOperStatus 1;
the final index is the management interface Vlan1 with ifType 53, ifSpeed
1000000000 and ifOperStatus 1. -/
theorem claim2_interface_roles (d : Device) :
    (generate_interface_mib d =
      (".1.3.6.1.2.1.2.1.0 = INTEGER: " ++ toString (d.ports + d.uplinks.length + 1)) ::
        ((List.range (d.ports + d.uplinks.length + 1)).map
          (fun k => ifEntry d (k + 1))).flatten) ∧
    (∀ i, 1 ≤ i → i ≤ d.ports → ifEntry d i =
      [".1.3.6.1.2.1.2.2.1.1." ++ toString i ++ " = INTEGER: " ++ toString i,
       ".1.3.6.1.2.1.2.2.1.2." ++ toString i ++ " = STRING: GigabitEthernet1/0/" ++ toString i,
       ".1.3.6.1.2.1.2.2.1.3." ++ toString i ++ " = INTEGER: 6",
       ".1.3.6.1.2.1.2.2.1.5." ++ toString i ++ " = Gauge32: 1000000000",
       ".1.3.6.1.2.1.2.2.1.8." ++ toString i ++ " = INTEGER: 1"]) ∧
    (∀ j, j < d.uplinks.length → ifEntry d (d.ports + 1 + j) =
      [".1.3.6.1.2.1.2.2.1.1." ++ toString (d.ports + 1 + j) ++ " = INTEGER: " ++ toString (d.ports + 1 + j),
       ".1.3.6.1.2.1.2.2.1.2." ++ toString (d.ports + 1 + j) ++ " = STRING: " ++ d.uplinks.getD j "",
       ".1.3.6.1.2.1.2.2.1.3." ++ toString (d.ports + 1 + j) ++ " = INTEGER: 6",
       ".1.3.6.1.2.1.2.2.1.5." ++ toString (d.ports + 1 + j) ++ " = Gauge32: 10000000000",
       ".1.3.6.1.2.1.2.2.1.8." ++ toString (d.ports + 1 + j) ++ " = INTEGER: 1"]) ∧
    (ifEntry d (d.ports + d.uplinks.length + 1) =
      [".1.3.6.1.2.1.2.2.1.1." ++ toString (d.ports + d.uplinks.length + 1) ++ " = INTEGER: " ++ toString (d.ports + d.uplinks.length + 1),
       ".1.3.6.1.2.1.2.2.1.2." ++ toString (d.ports + d.uplinks.length + 1) ++ " = STRING: Vlan1",
       ".1.3.6.1.2.1.2.2.1.3." ++ toString (d.ports + d.uplinks.length + 1) ++ " = INTEGER: 53",
       ".1.3.6.1.2.1.2.2.1.5." ++ toString (d.ports + d.uplinks.length + 1) ++ " = Gauge32: 1000000000",
       ".1.3.6.1.2.1.2.2.1.8." ++ toString (d.ports + d.uplinks.length + 1) ++ " = INTEGER: 1"]) := by
  refine ⟨rfl, ?_, ?_, ?_⟩
  · intro i h1 h2
    unfold ifEntry
    rw [if_pos h2]
  · intro j hj
    unfold ifEntry
    rw [if_neg (by omega), if_pos (by omega)]
    have hidx : d.ports + 1 + j - d.ports - 1 = j := by omega
    rw [hidx]
  · unfold ifEntry
    rw [if_neg (by omega), if_neg (by omega)]

/-- C2 witness: on the Cisco c3850-48p descriptor, interface index 49 is
the first uplink, named TenGigabitEthernet1/1/1 at 10 Gbps. -/
theorem claim2_interface_roles_witness :
    ifEntry cisco_c3850_48p 49 =
      [".1.3.6.1.2.1.2.2.1.1.49 = INTEGER: 49",
       ".1.3.6.1.2.1.2.2.1.2.49 = STRING: TenGigabitEthernet1/1/1",
       ".1.3.6.1.2.1.2.2.1.3.49 = INTEGER: 6",
       ".1.3.6.1.2.1.2.2.1.5.49 = Gauge32: 10000000000",
       ".1.3.6.1.2.1.2.2.1.8.49 = INTEGER: 1"] :=
  ((claim2_interface_roles cisco_c3850_48p).2.2.1 0 (by decide)).trans (by decide)

/-- C10: every interface index gets exactly five rows, so the interface
section is exactly `1 + 5 * (portCount + len(uplinks) + 1)` lines long. -/
theorem claim10_row_count (d : Device) :
    (generate_interface_mib d).length = 1 + 5 * (d.ports + d.uplinks.length + 1) := by
  have hlen : ∀ i, (ifEntry d i).length = 5 := by
    intro i
    unfold ifEntry
    by_cases h1 : i ≤ d.ports
    · rw [if_pos h1]; rfl
    · rw [if_neg h1]
      by_cases h2 : i ≤ d.ports + d.uplinks.length
      · rw [if_pos h2]; rfl
      · rw [if_neg h2]; rfl
  have key : (((List.range (d.ports + d.uplinks.length + 1)).map
      (fun k => ifEntry d (k + 1))).flatten).length = 5 * (d.ports + d.uplinks.length + 1) := by
    rw [List.length_flatten, List.map_map]
    have hmap : (List.range (d.ports + d.uplinks.length + 1)).map
        (List.length ∘ fun k => ifEntry d (k + 1)) =
        (List.range (d.ports + d.uplinks.length + 1)).map (fun _ => 5) := by
      apply List.map_congr_left
      intro a _
      exact hlen (a + 1)
    rw [hmap, List.map_const', List.sum_replicate, List.length_range, smul_eq_mul]
    omega
  unfold generate_interface_mib
  rw [List.length_cons, key]
  omega

/-- C4: the system-info section is exactly these seven lines: sysDescr
with the descriptor description verbatim, the hardcoded Cisco sysObjectID,
a fixed sysUpTime, a fixed sysContact, sysName with the hostname, a fixed
sysLocation, and sysServices INTEGER 78; only the description and hostname
vary. -/
theorem claim4_system_section (d : Device) (hostname : String) :
    generate_system_mib d hostname =
      [".1.3.6.1.2.1.1.1.0 = STRING: " ++ d.description,
       ".1.3.6.1.2.1.1.2.0 = OID: .1.3.6.1.4.1.9.1.1719",
       ".1.3.6.1.2.1.1.3.0 = Timeticks: (123456789) 14 days, 6:56:07.89",
       ".1.3.6.1.2.1.1.4.0 = STRING: Network Administrator",
       ".1.3.6.1.2.1.1.5.0 = STRING: " ++ hostname,
       ".1.3.6.1.2.1.1.6.0 = STRING: NiAC-Go Simulated Device",
       ".1.3.6.1.2.1.1.7.0 = INTEGER: 78"] ∧
    (generate_system_mib d hostname).length = 7 :=
  ⟨rfl, rfl⟩

/-- C5: the enterprise dispatch depends only on the vendor key: cisco gets
the fixed entity rows (model from the descriptor, constant placeholder
serial), CPU gauges and memory integers; juniper gets exactly two rows;
every other vendor gets nothing, with no error. -/
theorem claim5_enterprise_dispatch :
    (∀ d : Device, enterpriseLines "cisco" d =
      [".1.3.6.1.4.1.9.9.13.1.3.1.3.1 = STRING: " ++ d.model,
       ".1.3.6.1.4.1.9.9.13.1.3.1.5.1 = STRING: Chassis",
       ".1.3.6.1.4.1.9.9.13.1.3.1.11.1 = STRING: FOCCXXXXXXX",
       ".1.3.6.1.4.1.9.9.109.1.1.1.1.3.1 = Gauge32: 5",
       ".1.3.6.1.4.1.9.9.109.1.1.1.1.4.1 = Gauge32: 8",
       ".1.3.6.1.4.1.9.9.109.1.1.1.1.5.1 = Gauge32: 10",
       ".1.3.6.1.4.1.9.9.48.1.1.1.5.1 = INTEGER: 4194304000",
       ".1.3.6.1.4.1.9.9.48.1.1.1.6.1 = INTEGER: 12582912000"]) ∧
    (∀ d : Device, enterpriseLines "juniper" d =
      [".1.3.6.1.4.1.2636.3.1.2.0 = STRING: " ++ d.model,
       ".1.3.6.1.4.1.2636.3.1.3.0 = STRING: SNXXXXXXXX"]) ∧
    (∀ vendor : String, vendor ≠ "cisco" → vendor ≠ "juniper" →
      ∀ d : Device, enterpriseLines vendor d = []) := by
  refine ⟨fun d => rfl, fun d => rfl, fun v hc hj d => ?_⟩
  unfold enterpriseLines
  rw [if_neg hc, if_neg hj]

/-- C5 witness: the vendor aruba, which is neither cisco nor juniper, gets
an empty enterprise section. -/
theorem claim5_enterprise_dispatch_witness :
    enterpriseLines "aruba" aruba_cx6300_48g = [] :=
  claim5_enterprise_dispatch.2.2 "aruba" (by decide) (by decide) aruba_cx6300_48g

/-- C9: the stacking and poe flags never affect the assembled walk lines:
two descriptors equal in model, description, portCount and uplinks yield
identical line sequences. -/
theorem claim9_flags_immaterial (vendor : String) (d1 d2 : Device) (hostname now : String)
    (hmodel : d1.model = d2.model) (hdesc : d1.description = d2.description)
    (hports : d1.ports = d2.ports) (huplinks : d1.uplinks = d2.uplinks) :
    assembleLines vendor d1 hostname now = assembleLines vendor d2 hostname now := by
  obtain ⟨m1, de1, p1, s1, po1, u1⟩ := d1
  obtain ⟨m2, de2, p2, s2, po2, u2⟩ := d2
  simp only at hmodel hdesc hports huplinks
  subst hmodel hdesc hports huplinks
  rfl

/-- C9 witness: flipping both flags on the PA-440 descriptor leaves the
assembled lines unchanged. -/
theorem claim9_flags_immaterial_witness :
    assembleLines "paloalto" paloalto_pa_440 "niac-device-01" "2025-06-01 12:00:00" =
      assembleLines "paloalto" paloalto_pa_440_flipped "niac-device-01" "2025-06-01 12:00:00" :=
  claim9_flags_immaterial "paloalto" paloalto_pa_440 paloalto_pa_440_flipped
    "niac-device-01" "2025-06-01 12:00:00" rfl rfl rfl rfl

/-- C3 (amended): the assembler is deterministic given the formatted
timestamp; two runs for a fixed (vendor, descriptor, hostname) differ at
most in the Date header comment, which is line index 2 and carries the
run timestamp verbatim. -/
theorem claim3_determinism_amended (vendor : String) (d : Device) (hostname t1 t2 : String) :
    (assembleLines vendor d hostname t1).eraseIdx 2 =
      (assembleLines vendor d hostname t2).eraseIdx 2 ∧
    (assembleLines vendor d hostname t1)[2]? = some ("# Date: " ++ t1) :=
  ⟨rfl, rfl⟩

/-- C3 counterexample: two runs at different wall-clock seconds produce
different outputs for the same (vendor, model, hostname), because the
header embeds the generation timestamp. -/
theorem claim3_counterexample :
    generate_walk_file "paloalto" "pa-440" "niac-device-01" "2025-06-01 12:00:00" ≠
      generate_walk_file "paloalto" "pa-440" "niac-device-01" "2025-06-01 12:00:01" := by
  decide

/-- C6: generation with a vendor key outside the catalog reports
VendorNotFound naming the bad key together with the comma-joined list of
the ten valid vendor keys, and the process exit code is 1. -/
theorem claim6_unknown_vendor (vendor model hostname now : String)
    (h : vendor ∉ ["cisco", "juniper", "aruba", "extreme", "paloalto",
      "hpe", "arista", "dell", "fortinet", "meraki"]) :
    generate_walk_file vendor model hostname now =
      .vendorNotFound vendor
        "cisco, juniper, aruba, extreme, paloalto, hpe, arista, dell, fortinet, meraki" ∧
    mainExitCode vendor model hostname now = 1 := by
  simp only [List.mem_cons, List.not_mem_nil, or_false, not_or] at h
  obtain ⟨h1, h2, h3, h4, h5, h6, h7, h8, h9, h10⟩ := h
  have hl : DEVICE_TEMPLATES.lookup vendor = none := by
    simp [DEVICE_TEMPLATES, List.lookup_cons, beq_false_of_ne h1, beq_false_of_ne h2,
      beq_false_of_ne h3, beq_false_of_ne h4, beq_false_of_ne h5, beq_false_of_ne h6,
      beq_false_of_ne h7, beq_false_of_ne h8, beq_false_of_ne h9, beq_false_of_ne h10]
  refine ⟨?_, ?_⟩
  · unfold generate_walk_file
    rw [hl]
    rfl
  · unfold mainExitCode generate_walk_file
    rw [hl]

/-- C6 witness: the unknown vendor key acme from the spec scenario. -/
theorem claim6_unknown_vendor_witness :
    generate_walk_file "acme" "x1" "niac-device-01" "2025-06-01 12:00:00" =
      .vendorNotFound "acme"
        "cisco, juniper, aruba, extreme, paloalto, hpe, arista, dell, fortinet, meraki" ∧
    mainExitCode "acme" "x1" "niac-device-01" "2025-06-01 12:00:00" = 1 :=
  claim6_unknown_vendor "acme" "x1" "niac-device-01" "2025-06-01 12:00:00" (by decide)

/-- C7: generation with a catalog vendor but a model key absent from that
vendor's table reports ModelNotFound listing exactly that vendor's model
keys, and the process exit code is 1. -/
theorem claim7_unknown_model (vendor model hostname now : String) (ms : List (String × Device))
    (hv : DEVICE_TEMPLATES.lookup vendor = some ms) (hm : ms.lookup model = none) :
    generate_walk_file vendor model hostname now =
      .modelNotFound model vendor (String.intercalate ", " (ms.map Prod.fst)) ∧
    mainExitCode vendor model hostname now = 1 := by
  constructor
  · simp [generate_walk_file, hv, hm]
  · simp [mainExitCode, generate_walk_file, hv, hm]

/-- C7 witness: the unknown model key bogus under the cisco vendor lists
only the four cisco model keys. -/
theorem claim7_unknown_model_witness :
    generate_walk_file "cisco" "bogus" "niac-device-01" "2025-06-01 12:00:00" =
      .modelNotFound "bogus" "cisco" "c3850-48p, c3650-48p, c9300-48p, n9k-c9300" ∧
    mainExitCode "cisco" "bogus" "niac-device-01" "2025-06-01 12:00:00" = 1 := by
  have h := claim7_unknown_model "cisco" "bogus" "niac-device-01" "2025-06-01 12:00:00"
    ciscoModels (by decide) (by decide)
  exact ⟨h.1.trans (by decide), h.2⟩

/-- C8 (amended): every successfully generated line is a comment, blank,
or an OID entry of the contract grammar, and the joined file text always
ends in a newline; but the last line is blank (so the file ends in two
newline bytes, not a single trailing newline) exactly for vendors other
than cisco and juniper, whose enterprise section is empty. -/
theorem claim8_file_format (vendor model hostname now : String) (ls : List String)
    (hok : generate_walk_file vendor model hostname now = .ok ls) :
    ls.all isWalkLine = true ∧
    (fileData ls).getLast? = some '\n' ∧
    (ls.getLast? = some "" ↔ ¬(vendor = "cisco" ∨ vendor = "juniper")) := by
  obtain ⟨d, hd, rfl⟩ := ok_shape hok
  refine ⟨assemble_all_ok hd vendor hostname now, List.getLast?_concat _, ?_⟩
  rw [assemble_getLast_eq, blank_enterprise_getLast]
  by_cases hc : vendor = "cisco"
  · rw [if_pos hc]
    simp [hc]
  · rw [if_neg hc]
    by_cases hj : vendor = "juniper"
    · rw [if_pos hj]
      simp [hc, hj]
    · rw [if_neg hj]
      simp [hc, hj]

/-- C8 witness: a cisco run, whose nonempty enterprise section makes the
last line nonblank, so the file ends with a single trailing newline. -/
theorem claim8_file_format_witness :
    (assembleLines "cisco" cisco_c3850_48p "sw01" "2025-06-01 12:00:00").all isWalkLine = true ∧
    (fileData (assembleLines "cisco" cisco_c3850_48p "sw01" "2025-06-01 12:00:00")).getLast? =
      some '\n' ∧
    ((assembleLines "cisco" cisco_c3850_48p "sw01" "2025-06-01 12:00:00").getLast? = some "" ↔
      ¬("cisco" = "cisco" ∨ "cisco" = "juniper")) :=
  claim8_file_format "cisco" "c3850-48p" "sw01" "2025-06-01 12:00:00"
    (assembleLines "cisco" cisco_c3850_48p "sw01" "2025-06-01 12:00:00") rfl

set_option maxRecDepth 100000 in
/-- C8 counterexample: for the paloalto pa-440 run the generation succeeds
but the written bytes do not end in a single trailing newline: the blank
separator before the empty enterprise section leaves the file ending in
two newline characters. -/
theorem claim8_counterexample :
    (walkOk (generate_walk_file "paloalto" "pa-440" "niac-device-01" "2025-06-01 12:00:00")).map
      (fun ls => singleTrailingNewline (fileData ls)) = some false := by
  decide
